import Mathlib

/-
  Verification development for the terminal Snake game (src/src/main.rs).

  The game core is shallowly embedded: the `App` struct and its methods
  (`update`, `move_dot`, `handle_tail`, `handle_food`, `spawn_food_randomly`,
  `handle_death`, `handle_key_event`, the four heading setters) are translated
  to pure Lean functions.  Randomness in `spawn_food_randomly` (an unbounded
  rejection-sampling loop over `rng.gen_range`) is modelled by threading an
  explicit list of raw samples; a result of `none` means the loop has consumed
  every provided sample without accepting one, i.e. the code is still looping.
  The u8 score counter wraps modulo 256 (release-mode Rust semantics).
  The main loop (`App::run`) is modelled by a step relation: a key event may
  arrive at any iteration, and a tick (`update`) fires only while neither the
  game-over popup nor the win popup is shown.
-/

set_option maxHeartbeats 1000000
set_option maxRecDepth 20000

namespace Snake

def GAME_WIDTH : Nat := 60

def GAME_HEIGHT : Nat := 25

def GRID_SIZE : Nat := GAME_WIDTH * GAME_HEIGHT

/-- The bound `game_width.saturating_sub(3)` used by `move_dot` and
`spawn_food_randomly`. -/
def max_x : Nat := GAME_WIDTH - 3

/-- The bound `game_height.saturating_sub(3)`. -/
def max_y : Nat := GAME_HEIGHT - 3

/-- The `Dot` struct: a grid cell, compared field-wise (`PartialEq`). -/
structure Dot where
  x : Nat
  y : Nat
  deriving DecidableEq

/-- The `Food` struct. -/
structure Food where
  x : Nat
  y : Nat
  deriving DecidableEq

/-- The `App` struct: the whole game state.  `tail` is the `VecDeque<Dot>` of
previous head positions, front first; `tail_length` is the desired length. -/
structure App where
  counter : Nat
  exit : Bool
  dot : Dot
  move_right : Bool
  move_left : Bool
  move_up : Bool
  move_down : Bool
  tail : List Dot
  tail_length : Nat
  food : Food
  show_game_over_popup : Bool
  show_win_popup : Bool
  deriving DecidableEq

/-- `impl Default for App`. -/
def App.default : App where
  counter := 0
  exit := false
  dot := ⟨20, 20⟩
  move_right := false
  move_left := false
  move_up := true
  move_down := false
  tail := []
  tail_length := 3
  food := ⟨50, 20⟩
  show_game_over_popup := false
  show_win_popup := false

/-- The even-alignment adjustment inside the spawn loop:
`if x % 2 != 0 { x = if x == max_x { x - 1 } else { x + 1 } }`. -/
def adjustX (x : Nat) : Nat :=
  if x % 2 ≠ 0 then (if x = max_x then x - 1 else x + 1) else x

/-- One iteration of the `loop` in `spawn_food_randomly`, applied to one raw
sample `(x, y)`:  adjust `x` to be even, then reject the cell if it conflicts
with the head or any tail segment, otherwise accept it as the food cell. -/
def spawnAccept (s : App) (p : Nat × Nat) : Option Food :=
  if adjustX p.1 = s.dot.x ∧ p.2 = s.dot.y then none
  else if s.tail.any (fun d => d.x == adjustX p.1 && d.y == p.2) then none
  else some ⟨adjustX p.1, p.2⟩

/-- The rejection-sampling `loop` of `spawn_food_randomly`, consuming raw
samples until one is accepted.  `none` = every sample was rejected (the real
code would still be inside the loop). -/
def spawnLoop (s : App) : List (Nat × Nat) → Option (Food × List (Nat × Nat))
  | [] => none
  | p :: rest =>
    match spawnAccept s p with
    | some f => some (f, rest)
    | none => spawnLoop s rest

/-- `App::spawn_food_randomly`: first the win check
(`if self.tail_length == (GRID_SIZE - 1) { self.show_win_popup = true; }`),
then the rejection-sampling loop that stores the accepted cell in `food`. -/
def spawn_food_randomly (s : App) (smp : List (Nat × Nat)) :
    Option (App × List (Nat × Nat)) :=
  let s1 := if s.tail_length = GRID_SIZE - 1 then { s with show_win_popup := true } else s
  match spawnLoop s1 smp with
  | none => none
  | some (f, rest) => some ({ s1 with food := f }, rest)

/-- `App::handle_food`: if the head currently sits on the food cell, grow the
desired length by one, respawn the food, and bump the score (u8, wrapping). -/
def handle_food (s : App) (smp : List (Nat × Nat)) :
    Option (App × List (Nat × Nat)) :=
  if s.dot.x = s.food.x ∧ s.dot.y = s.food.y then
    match spawn_food_randomly { s with tail_length := s.tail_length + 1 } smp with
    | none => none
    | some (s2, rest) => some ({ s2 with counter := (s2.counter + 1) % 256 }, rest)
  else some (s, smp)

/-- The `move_up` branch of `App::move_dot`:
`if self.move_up && self.dot.y > 0 { self.handle_food(); self.dot.y -= 1; }`. -/
def moveUpStep (s : App) (smp : List (Nat × Nat)) :
    Option (App × List (Nat × Nat)) :=
  if s.move_up = true ∧ 0 < s.dot.y then
    match handle_food s smp with
    | none => none
    | some (s1, rest) => some ({ s1 with dot := ⟨s1.dot.x, s1.dot.y - 1⟩ }, rest)
  else some (s, smp)

/-- The `move_right` branch of `App::move_dot`: one step right, and a second
step right when the first one did not reach `max_x`, with a food check before
each step. -/
def moveRightStep (s : App) (smp : List (Nat × Nat)) :
    Option (App × List (Nat × Nat)) :=
  if s.move_right = true ∧ s.dot.x < max_x then
    match handle_food s smp with
    | none => none
    | some (s1, rest) =>
      if s1.dot.x + 1 < max_x then
        match handle_food { s1 with dot := ⟨s1.dot.x + 1, s1.dot.y⟩ } rest with
        | none => none
        | some (s2, rest2) => some ({ s2 with dot := ⟨s2.dot.x + 1, s2.dot.y⟩ }, rest2)
      else some ({ s1 with dot := ⟨s1.dot.x + 1, s1.dot.y⟩ }, rest)
  else some (s, smp)

/-- The `move_left` branch of `App::move_dot`, symmetric to `moveRightStep`. -/
def moveLeftStep (s : App) (smp : List (Nat × Nat)) :
    Option (App × List (Nat × Nat)) :=
  if s.move_left = true ∧ 0 < s.dot.x then
    match handle_food s smp with
    | none => none
    | some (s1, rest) =>
      if 0 < s1.dot.x - 1 then
        match handle_food { s1 with dot := ⟨s1.dot.x - 1, s1.dot.y⟩ } rest with
        | none => none
        | some (s2, rest2) => some ({ s2 with dot := ⟨s2.dot.x - 1, s2.dot.y⟩ }, rest2)
      else some ({ s1 with dot := ⟨s1.dot.x - 1, s1.dot.y⟩ }, rest)
  else some (s, smp)

/-- The `move_down` branch of `App::move_dot`. -/
def moveDownStep (s : App) (smp : List (Nat × Nat)) :
    Option (App × List (Nat × Nat)) :=
  if s.move_down = true ∧ s.dot.y < max_y then
    match handle_food s smp with
    | none => none
    | some (s1, rest) => some ({ s1 with dot := ⟨s1.dot.x, s1.dot.y + 1⟩ }, rest)
  else some (s, smp)

/-- `App::move_dot`: the four direction branches run in sequence on the same
mutable state. -/
def move_dot (s : App) (smp : List (Nat × Nat)) :
    Option (App × List (Nat × Nat)) :=
  match moveUpStep s smp with
  | none => none
  | some (s1, r1) =>
    match moveRightStep s1 r1 with
    | none => none
    | some (s2, r2) =>
      match moveLeftStep s2 r2 with
      | none => none
      | some (s3, r3) => moveDownStep s3 r3

/-- `App::handle_tail`: push the current head onto the front of the tail deque,
then pop the back if the deque is now longer than `tail_length`. -/
def handle_tail (s : App) : App :=
  if s.tail_length < (s.dot :: s.tail).length then
    { s with tail := (s.dot :: s.tail).dropLast }
  else
    { s with tail := s.dot :: s.tail }

/-- `App::handle_death`: show the game-over popup if the head currently
coincides with a tail segment. -/
def handle_death (s : App) : App :=
  if s.dot ∈ s.tail then { s with show_game_over_popup := true } else s

/-- One elapsed-interval body of `App::update`:
`self.handle_death(); self.handle_tail(); self.move_dot();`. -/
def update (s : App) (smp : List (Nat × Nat)) :
    Option (App × List (Nat × Nat)) :=
  move_dot (handle_tail (handle_death s)) smp

/-- The heading abstraction used by the specification: exactly one of the four
direction flags is active. -/
inductive Heading where
  | Up
  | Down
  | Left
  | Right
  deriving DecidableEq

/-- The exact opposite of a heading. -/
def Heading.opposite : Heading → Heading
  | .Up => .Down
  | .Down => .Up
  | .Left => .Right
  | .Right => .Left

/-- `App::move_up`: activates the Up flags unless `move_down` is set. -/
def moveUp (s : App) : App :=
  if s.move_down = true then s
  else { s with move_right := false, move_left := false, move_up := true, move_down := false }

/-- `App::move_down`: activates the Down flags unless `move_up` is set. -/
def moveDown (s : App) : App :=
  if s.move_up = true then s
  else { s with move_right := false, move_left := false, move_up := false, move_down := true }

/-- `App::move_right`: activates the Right flags unless `move_left` is set. -/
def moveRight (s : App) : App :=
  if s.move_left = true then s
  else { s with move_right := true, move_left := false, move_up := false, move_down := false }

/-- `App::move_left`: activates the Left flags unless `move_right` is set. -/
def moveLeft (s : App) : App :=
  if s.move_right = true then s
  else { s with move_left := true, move_right := false, move_up := false, move_down := false }

/-- Dispatch of a requested heading to the corresponding setter, exactly as the
arrow-key match arms of `handle_key_event` do. -/
def requestHeading (s : App) : Heading → App
  | .Up => moveUp s
  | .Down => moveDown s
  | .Left => moveLeft s
  | .Right => moveRight s

/-- The stored flag state corresponds to the given heading (exactly one flag
active, the right one). -/
def isHeading (s : App) : Heading → Bool
  | .Up => s.move_up && !s.move_down && !s.move_left && !s.move_right
  | .Down => s.move_down && !s.move_up && !s.move_left && !s.move_right
  | .Left => s.move_left && !s.move_up && !s.move_down && !s.move_right
  | .Right => s.move_right && !s.move_up && !s.move_down && !s.move_left

/-- The key codes distinguished by `handle_key_event`; `Other` stands for any
key without a bound action. -/
inductive KeyCode where
  | Char : Char → KeyCode
  | Left
  | Right
  | Up
  | Down
  | Other
  deriving DecidableEq

/-- `App::handle_key_event`: while the game-over popup shows, any key press
exits; then the key is dispatched (q = exit, arrows = heading setters). -/
def handle_key_event (s : App) (k : KeyCode) : App :=
  let s1 := if s.show_game_over_popup = true then { s with exit := true } else s
  match k with
  | .Char c => if c = 'q' then { s1 with exit := true } else s1
  | .Left => moveLeft s1
  | .Right => moveRight s1
  | .Up => moveUp s1
  | .Down => moveDown s1
  | .Other => s1

/-- One observable step of `App::run`'s loop: either a key press event is
handled, or a tick fires — the latter only while neither popup is shown
(`if !self.show_game_over_popup && !self.show_win_popup { self.update() }`). -/
inductive Step : App → App → Prop where
  | key : ∀ (s : App) (k : KeyCode), Step s (handle_key_event s k)
  | tick : ∀ (s : App) (smp : List (Nat × Nat)) (out : App × List (Nat × Nat)),
      s.show_game_over_popup = false → s.show_win_popup = false →
      update s smp = some out → Step s out.1

/-- The state right after `run`'s initial `spawn_food_randomly` on the default
`App`. -/
def InitState (s : App) : Prop :=
  ∃ (smp : List (Nat × Nat)) (out : App × List (Nat × Nat)),
    spawn_food_randomly App.default smp = some out ∧ s = out.1

/-- States reachable by the game loop from a freshly initialised session. -/
def Reachable (s : App) : Prop :=
  ∃ s₀, InitState s₀ ∧ Relation.ReflTransGen Step s₀ s

/-- The win-popup/threshold invariant: the win popup is shown exactly when the
desired length has reached `GRID_SIZE - 1`. -/
def WinInv (s : App) : Prop :=
  s.show_win_popup = true ↔ GRID_SIZE - 1 ≤ s.tail_length

/-- The length invariant of reachable states: the tail deque never exceeds
the desired length. -/
def LenInv (s : App) : Prop := s.tail.length ≤ s.tail_length

/-- Head displacement of the `move_up` branch (one cell up unless at the top
edge). -/
def dotUp (s : App) (d : Dot) : Dot :=
  if s.move_up = true ∧ 0 < d.y then ⟨d.x, d.y - 1⟩ else d

/-- Head displacement of the `move_right` branch (up to two cells right). -/
def dotRight (s : App) (d : Dot) : Dot :=
  if s.move_right = true ∧ d.x < max_x then
    (if d.x + 1 < max_x then ⟨d.x + 2, d.y⟩ else ⟨d.x + 1, d.y⟩)
  else d

/-- Head displacement of the `move_left` branch (up to two cells left). -/
def dotLeft (s : App) (d : Dot) : Dot :=
  if s.move_left = true ∧ 0 < d.x then
    (if 0 < d.x - 1 then ⟨d.x - 2, d.y⟩ else ⟨d.x - 1, d.y⟩)
  else d

/-- Head displacement of the `move_down` branch (one cell down unless at the
bottom edge). -/
def dotDown (s : App) (d : Dot) : Dot :=
  if s.move_down = true ∧ d.y < max_y then ⟨d.x, d.y + 1⟩ else d

/-- The total head displacement of one `move_dot` call. -/
def dotAfter (s : App) : Dot :=
  dotDown s (dotLeft s (dotRight s (dotUp s s.dot)))

/-- A Running state whose candidate head cell (one up) is occupied by a snake
cell that is not the tail cell vacated this tick. -/
def c1s : App := { App.default with dot := ⟨5, 5⟩, tail := [⟨5, 4⟩, ⟨4, 4⟩, ⟨4, 5⟩] }

/-- The state where the head stands on a tail cell, for the C1 witness. -/
def c1ws : App := { App.default with tail := [⟨20, 20⟩] }

/-- The tick result on `c1ws`. -/
def c1wt : App :=
  { App.default with
      dot := ⟨20, 19⟩
      tail := [⟨20, 20⟩, ⟨20, 20⟩]
      show_game_over_popup := true }

/-- A Running state whose head is one cell above the food. -/
def c2s : App := { App.default with dot := ⟨5, 5⟩, food := ⟨5, 4⟩ }

/-- The head-on-food state for the C2 witness. -/
def c2ws : App := { App.default with dot := ⟨0, 0⟩, food := ⟨0, 0⟩ }

/-- The result of `handle_food` on `c2ws` with sample (2,0). -/
def c2wt : App :=
  { App.default with dot := ⟨0, 0⟩, food := ⟨2, 0⟩, tail_length := 4, counter := 1 }

/-- The freshly-spawned session whose food lies one cell above the head. -/
def c5init : App := { App.default with food := ⟨20, 19⟩ }

/-- The state after one completed tick from `c5init`: the head rests on the
food cell. -/
def c5bad : App :=
  { App.default with dot := ⟨20, 19⟩, tail := [⟨20, 20⟩], food := ⟨20, 19⟩ }

/-- A Running state heading Right in the open field. -/
def c6s : App := { App.default with move_up := false, move_right := true, dot := ⟨5, 5⟩ }

/-- The tick result on `c6s`, for the C6 witness. -/
def c6wt : App :=
  { App.default with
      move_up := false
      move_right := true
      dot := ⟨7, 5⟩
      tail := [⟨5, 5⟩] }

/-- `c8bad` is observed right after one completed tick from a freshly-spawned
session, yet its tail length 1 differs from its desired length 3. -/
def c8bad : App :=
  { App.default with food := ⟨0, 0⟩, dot := ⟨20, 19⟩, tail := [⟨20, 20⟩] }

/-- A tail occupying every cell the spawn loop can ever produce: all cells
with even x in [0,56] and y in [0,22] (29 × 23 = 667 cells). -/
def deadTail : List Dot := (List.range 667).map (fun k => ⟨2 * (k / 23), k % 23⟩)

/-- A snake configuration with no free placeable cell left. -/
def deadApp : App := { App.default with dot := ⟨0, 0⟩, tail := deadTail }

lemma spawnAccept_some (s : App) (p : Nat × Nat) (f : Food)
    (h : spawnAccept s p = some f) :
    f.x = adjustX p.1 ∧ f.y = p.2 ∧
    ¬(f.x = s.dot.x ∧ f.y = s.dot.y) ∧
    ∀ d ∈ s.tail, ¬(d.x = f.x ∧ d.y = f.y) := by
  unfold spawnAccept at h
  split_ifs at h with h1 h2
  · rw [Option.some_inj] at h
    subst h
    refine ⟨rfl, rfl, h1, ?_⟩
    intro d hd hc
    apply h2
    rw [List.any_eq_true]
    exact ⟨d, hd, by simp [hc.1, hc.2]⟩

lemma spawnLoop_some (s : App) (smp : List (Nat × Nat)) (f : Food)
    (r : List (Nat × Nat)) (h : spawnLoop s smp = some (f, r)) :
    ¬(f.x = s.dot.x ∧ f.y = s.dot.y) ∧
    ∀ d ∈ s.tail, ¬(d.x = f.x ∧ d.y = f.y) := by
  induction smp generalizing r with
  | nil => simp [spawnLoop] at h
  | cons p rest ih =>
    unfold spawnLoop at h
    rcases ha : spawnAccept s p with _ | f'
    · rw [ha] at h
      exact ih r h
    · rw [ha, Option.some_inj, Prod.mk.injEq] at h
      obtain ⟨hf, hr⟩ := h
      subst hf
      have hs := spawnAccept_some s p f' ha
      exact ⟨hs.2.2.1, hs.2.2.2⟩

lemma spawn_spec (s : App) (smp : List (Nat × Nat)) (t : App)
    (r : List (Nat × Nat)) (h : spawn_food_randomly s smp = some (t, r)) :
    t.dot = s.dot ∧ t.tail = s.tail ∧ t.tail_length = s.tail_length ∧
    t.counter = s.counter ∧ t.exit = s.exit ∧
    t.move_up = s.move_up ∧ t.move_right = s.move_right ∧
    t.move_left = s.move_left ∧ t.move_down = s.move_down ∧
    t.show_game_over_popup = s.show_game_over_popup ∧
    t.show_win_popup = (s.show_win_popup || decide (s.tail_length = GRID_SIZE - 1)) ∧
    ¬(t.food.x = s.dot.x ∧ t.food.y = s.dot.y) ∧
    (∀ d ∈ s.tail, ¬(d.x = t.food.x ∧ d.y = t.food.y)) := by
  unfold spawn_food_randomly at h
  by_cases hc : s.tail_length = GRID_SIZE - 1
  · rw [if_pos hc] at h
    dsimp only at h
    rcases hl : spawnLoop { s with show_win_popup := true } smp with _ | ⟨f, rest⟩
    · rw [hl] at h
      cases h
    · rw [hl, Option.some_inj, Prod.mk.injEq] at h
      obtain ⟨ht, hr⟩ := h
      subst ht
      have hs := spawnLoop_some _ smp f rest hl
      exact ⟨rfl, rfl, rfl, rfl, rfl, rfl, rfl, rfl, rfl, rfl,
        by simp [hc], hs.1, hs.2⟩
  · rw [if_neg hc] at h
    dsimp only at h
    rcases hl : spawnLoop s smp with _ | ⟨f, rest⟩
    · rw [hl] at h
      cases h
    · rw [hl, Option.some_inj, Prod.mk.injEq] at h
      obtain ⟨ht, hr⟩ := h
      subst ht
      have hs := spawnLoop_some s smp f rest hl
      exact ⟨rfl, rfl, rfl, rfl, rfl, rfl, rfl, rfl, rfl, rfl,
        by simp [hc], hs.1, hs.2⟩

lemma grid_threshold : GRID_SIZE - 1 = 1499 := by
  norm_num [GRID_SIZE, GAME_WIDTH, GAME_HEIGHT]

lemma handle_food_spec (s : App) (smp : List (Nat × Nat)) (t : App)
    (r : List (Nat × Nat)) (h : handle_food s smp = some (t, r)) :
    t.dot = s.dot ∧ t.tail = s.tail ∧ t.exit = s.exit ∧
    t.move_up = s.move_up ∧ t.move_right = s.move_right ∧
    t.move_left = s.move_left ∧ t.move_down = s.move_down ∧
    t.show_game_over_popup = s.show_game_over_popup ∧
    s.tail_length ≤ t.tail_length ∧ (WinInv s → WinInv t) := by
  unfold handle_food at h
  split_ifs at h with he
  · rcases hs : spawn_food_randomly { s with tail_length := s.tail_length + 1 } smp
      with _ | ⟨s2, rest⟩
    · rw [hs] at h
      cases h
    · rw [hs, Option.some_inj, Prod.mk.injEq] at h
      obtain ⟨ht, hr⟩ := h
      subst ht
      obtain ⟨hdot, htail, htl, hcnt, hexit, hu, hrr, hll, hdd, hgo, hwin, -, -⟩ :=
        spawn_spec _ smp s2 rest hs
      refine ⟨hdot, htail, hexit, hu, hrr, hll, hdd, hgo, ?_, ?_⟩
      · show s.tail_length ≤ s2.tail_length
        rw [htl]
        exact Nat.le_succ _
      · intro hws
        unfold WinInv at hws ⊢
        show s2.show_win_popup = true ↔ GRID_SIZE - 1 ≤ s2.tail_length
        rw [hwin, htl, Bool.or_eq_true, decide_eq_true_eq]
        show s.show_win_popup = true ∨ s.tail_length + 1 = GRID_SIZE - 1 ↔
          GRID_SIZE - 1 ≤ s.tail_length + 1
        rw [grid_threshold] at hws ⊢
        constructor
        · rintro (hw | hEq)
          · have := hws.mp hw
            omega
          · omega
        · intro hle
          by_cases hEq : s.tail_length + 1 = 1499
          · exact Or.inr hEq
          · exact Or.inl (hws.mpr (by omega))
  · rw [Option.some_inj, Prod.mk.injEq] at h
    obtain ⟨ht, hr⟩ := h
    subst ht
    exact ⟨rfl, rfl, rfl, rfl, rfl, rfl, rfl, rfl, Nat.le_refl _, id⟩

lemma moveUpStep_spec (s : App) (smp : List (Nat × Nat)) (t : App)
    (r : List (Nat × Nat)) (h : moveUpStep s smp = some (t, r)) :
    t.tail = s.tail ∧ t.exit = s.exit ∧
    t.move_up = s.move_up ∧ t.move_right = s.move_right ∧
    t.move_left = s.move_left ∧ t.move_down = s.move_down ∧
    t.show_game_over_popup = s.show_game_over_popup ∧
    s.tail_length ≤ t.tail_length ∧ (WinInv s → WinInv t) ∧
    t.dot = dotUp s s.dot := by
  unfold moveUpStep at h
  split_ifs at h with hg
  · rcases hf : handle_food s smp with _ | ⟨s1, rest⟩
    · rw [hf] at h
      cases h
    · rw [hf, Option.some_inj, Prod.mk.injEq] at h
      obtain ⟨ht, hr⟩ := h
      subst ht
      obtain ⟨hdot, htail, hexit, hu, hrr, hll, hdd, hgo, htl, hwi⟩ :=
        handle_food_spec s smp s1 rest hf
      refine ⟨htail, hexit, hu, hrr, hll, hdd, hgo, htl, hwi, ?_⟩
      show (⟨s1.dot.x, s1.dot.y - 1⟩ : Dot) = dotUp s s.dot
      rw [dotUp, if_pos hg, hdot]
  · rw [Option.some_inj, Prod.mk.injEq] at h
    obtain ⟨ht, hr⟩ := h
    subst ht
    exact ⟨rfl, rfl, rfl, rfl, rfl, rfl, rfl, Nat.le_refl _, id,
      by rw [dotUp, if_neg hg]⟩

lemma moveDownStep_spec (s : App) (smp : List (Nat × Nat)) (t : App)
    (r : List (Nat × Nat)) (h : moveDownStep s smp = some (t, r)) :
    t.tail = s.tail ∧ t.exit = s.exit ∧
    t.move_up = s.move_up ∧ t.move_right = s.move_right ∧
    t.move_left = s.move_left ∧ t.move_down = s.move_down ∧
    t.show_game_over_popup = s.show_game_over_popup ∧
    s.tail_length ≤ t.tail_length ∧ (WinInv s → WinInv t) ∧
    t.dot = dotDown s s.dot := by
  unfold moveDownStep at h
  split_ifs at h with hg
  · rcases hf : handle_food s smp with _ | ⟨s1, rest⟩
    · rw [hf] at h
      cases h
    · rw [hf, Option.some_inj, Prod.mk.injEq] at h
      obtain ⟨ht, hr⟩ := h
      subst ht
      obtain ⟨hdot, htail, hexit, hu, hrr, hll, hdd, hgo, htl, hwi⟩ :=
        handle_food_spec s smp s1 rest hf
      refine ⟨htail, hexit, hu, hrr, hll, hdd, hgo, htl, hwi, ?_⟩
      show (⟨s1.dot.x, s1.dot.y + 1⟩ : Dot) = dotDown s s.dot
      rw [dotDown, if_pos hg, hdot]
  · rw [Option.some_inj, Prod.mk.injEq] at h
    obtain ⟨ht, hr⟩ := h
    subst ht
    exact ⟨rfl, rfl, rfl, rfl, rfl, rfl, rfl, Nat.le_refl _, id,
      by rw [dotDown, if_neg hg]⟩

lemma moveRightStep_spec (s : App) (smp : List (Nat × Nat)) (t : App)
    (r : List (Nat × Nat)) (h : moveRightStep s smp = some (t, r)) :
    t.tail = s.tail ∧ t.exit = s.exit ∧
    t.move_up = s.move_up ∧ t.move_right = s.move_right ∧
    t.move_left = s.move_left ∧ t.move_down = s.move_down ∧
    t.show_game_over_popup = s.show_game_over_popup ∧
    s.tail_length ≤ t.tail_length ∧ (WinInv s → WinInv t) ∧
    t.dot = dotRight s s.dot := by
  unfold moveRightStep at h
  split_ifs at h with hg
  · rcases hf : handle_food s smp with _ | ⟨s1, rest⟩
    · rw [hf] at h
      cases h
    · rw [hf] at h
      dsimp only at h
      obtain ⟨hdot1, htail1, hexit1, hu1, hrr1, hll1, hdd1, hgo1, htl1, hwi1⟩ :=
        handle_food_spec s smp s1 rest hf
      split_ifs at h with hg2
      · rcases hf2 : handle_food { s1 with dot := ⟨s1.dot.x + 1, s1.dot.y⟩ } rest
          with _ | ⟨s2, rest2⟩
        · rw [hf2] at h
          cases h
        · rw [hf2, Option.some_inj, Prod.mk.injEq] at h
          obtain ⟨ht, hr⟩ := h
          subst ht
          obtain ⟨hdot2, htail2, hexit2, hu2, hrr2, hll2, hdd2, hgo2, htl2, hwi2⟩ :=
            handle_food_spec _ rest s2 rest2 hf2
          refine ⟨htail2.trans htail1, hexit2.trans hexit1, hu2.trans hu1,
            hrr2.trans hrr1, hll2.trans hll1, hdd2.trans hdd1, hgo2.trans hgo1,
            htl1.trans htl2, fun hw => hwi2 (hwi1 hw), ?_⟩
          show (⟨s2.dot.x + 1, s2.dot.y⟩ : Dot) = dotRight s s.dot
          rw [dotRight, if_pos hg, hdot2]
          rw [hdot1] at hg2
          rw [if_pos hg2, hdot1]
      · rw [Option.some_inj, Prod.mk.injEq] at h
        obtain ⟨ht, hr⟩ := h
        subst ht
        refine ⟨htail1, hexit1, hu1, hrr1, hll1, hdd1, hgo1, htl1, hwi1, ?_⟩
        show (⟨s1.dot.x + 1, s1.dot.y⟩ : Dot) = dotRight s s.dot
        rw [hdot1] at hg2
        rw [dotRight, if_pos hg, if_neg hg2, hdot1]
  · rw [Option.some_inj, Prod.mk.injEq] at h
    obtain ⟨ht, hr⟩ := h
    subst ht
    exact ⟨rfl, rfl, rfl, rfl, rfl, rfl, rfl, Nat.le_refl _, id,
      by rw [dotRight, if_neg hg]⟩

lemma moveLeftStep_spec (s : App) (smp : List (Nat × Nat)) (t : App)
    (r : List (Nat × Nat)) (h : moveLeftStep s smp = some (t, r)) :
    t.tail = s.tail ∧ t.exit = s.exit ∧
    t.move_up = s.move_up ∧ t.move_right = s.move_right ∧
    t.move_left = s.move_left ∧ t.move_down = s.move_down ∧
    t.show_game_over_popup = s.show_game_over_popup ∧
    s.tail_length ≤ t.tail_length ∧ (WinInv s → WinInv t) ∧
    t.dot = dotLeft s s.dot := by
  unfold moveLeftStep at h
  split_ifs at h with hg
  · rcases hf : handle_food s smp with _ | ⟨s1, rest⟩
    · rw [hf] at h
      cases h
    · rw [hf] at h
      dsimp only at h
      obtain ⟨hdot1, htail1, hexit1, hu1, hrr1, hll1, hdd1, hgo1, htl1, hwi1⟩ :=
        handle_food_spec s smp s1 rest hf
      split_ifs at h with hg2
      · rcases hf2 : handle_food { s1 with dot := ⟨s1.dot.x - 1, s1.dot.y⟩ } rest
          with _ | ⟨s2, rest2⟩
        · rw [hf2] at h
          cases h
        · rw [hf2, Option.some_inj, Prod.mk.injEq] at h
          obtain ⟨ht, hr⟩ := h
          subst ht
          obtain ⟨hdot2, htail2, hexit2, hu2, hrr2, hll2, hdd2, hgo2, htl2, hwi2⟩ :=
            handle_food_spec _ rest s2 rest2 hf2
          refine ⟨htail2.trans htail1, hexit2.trans hexit1, hu2.trans hu1,
            hrr2.trans hrr1, hll2.trans hll1, hdd2.trans hdd1, hgo2.trans hgo1,
            htl1.trans htl2, fun hw => hwi2 (hwi1 hw), ?_⟩
          show (⟨s2.dot.x - 1, s2.dot.y⟩ : Dot) = dotLeft s s.dot
          rw [dotLeft, if_pos hg, hdot2]
          rw [hdot1] at hg2
          rw [if_pos hg2, hdot1]
          show (⟨s.dot.x - 1 - 1, s.dot.y⟩ : Dot) = ⟨s.dot.x - 2, s.dot.y⟩
          rw [Nat.sub_sub]
      · rw [Option.some_inj, Prod.mk.injEq] at h
        obtain ⟨ht, hr⟩ := h
        subst ht
        refine ⟨htail1, hexit1, hu1, hrr1, hll1, hdd1, hgo1, htl1, hwi1, ?_⟩
        show (⟨s1.dot.x - 1, s1.dot.y⟩ : Dot) = dotLeft s s.dot
        rw [hdot1] at hg2
        rw [dotLeft, if_pos hg, if_neg hg2, hdot1]
  · rw [Option.some_inj, Prod.mk.injEq] at h
    obtain ⟨ht, hr⟩ := h
    subst ht
    exact ⟨rfl, rfl, rfl, rfl, rfl, rfl, rfl, Nat.le_refl _, id,
      by rw [dotLeft, if_neg hg]⟩

lemma dotUp_congr (a b : App) (d : Dot) (h : a.move_up = b.move_up) :
    dotUp a d = dotUp b d := by
  unfold dotUp
  rw [h]

lemma dotRight_congr (a b : App) (d : Dot) (h : a.move_right = b.move_right) :
    dotRight a d = dotRight b d := by
  unfold dotRight
  rw [h]

lemma dotLeft_congr (a b : App) (d : Dot) (h : a.move_left = b.move_left) :
    dotLeft a d = dotLeft b d := by
  unfold dotLeft
  rw [h]

lemma dotDown_congr (a b : App) (d : Dot) (h : a.move_down = b.move_down) :
    dotDown a d = dotDown b d := by
  unfold dotDown
  rw [h]

lemma move_dot_spec (s : App) (smp : List (Nat × Nat)) (t : App)
    (r : List (Nat × Nat)) (h : move_dot s smp = some (t, r)) :
    t.tail = s.tail ∧ t.show_game_over_popup = s.show_game_over_popup ∧
    s.tail_length ≤ t.tail_length ∧ (WinInv s → WinInv t) ∧
    t.dot = dotAfter s := by
  unfold move_dot at h
  rcases h1 : moveUpStep s smp with _ | ⟨s1, r1⟩
  · rw [h1] at h
    cases h
  rw [h1] at h
  dsimp only at h
  rcases h2 : moveRightStep s1 r1 with _ | ⟨s2, r2⟩
  · rw [h2] at h
    cases h
  rw [h2] at h
  dsimp only at h
  rcases h3 : moveLeftStep s2 r2 with _ | ⟨s3, r3⟩
  · rw [h3] at h
    cases h
  rw [h3] at h
  dsimp only at h
  obtain ⟨tl1, ex1, mu1, mr1, ml1, md1, go1, le1, wi1, d1⟩ :=
    moveUpStep_spec s smp s1 r1 h1
  obtain ⟨tl2, ex2, mu2, mr2, ml2, md2, go2, le2, wi2, d2⟩ :=
    moveRightStep_spec s1 r1 s2 r2 h2
  obtain ⟨tl3, ex3, mu3, mr3, ml3, md3, go3, le3, wi3, d3⟩ :=
    moveLeftStep_spec s2 r2 s3 r3 h3
  obtain ⟨tl4, ex4, mu4, mr4, ml4, md4, go4, le4, wi4, d4⟩ :=
    moveDownStep_spec s3 r3 t r h
  refine ⟨tl4.trans (tl3.trans (tl2.trans tl1)),
    go4.trans (go3.trans (go2.trans go1)),
    le1.trans (le2.trans (le3.trans le4)),
    fun hw => wi4 (wi3 (wi2 (wi1 hw))), ?_⟩
  rw [d4, dotDown_congr s3 s s3.dot (md3.trans (md2.trans md1)), d3,
    dotLeft_congr s2 s s2.dot (ml2.trans ml1), d2,
    dotRight_congr s1 s s1.dot mr1, d1]
  rfl

lemma handle_death_spec (s : App) :
    (handle_death s).dot = s.dot ∧ (handle_death s).tail = s.tail ∧
    (handle_death s).tail_length = s.tail_length ∧
    (handle_death s).food = s.food ∧ (handle_death s).counter = s.counter ∧
    (handle_death s).exit = s.exit ∧
    (handle_death s).move_up = s.move_up ∧
    (handle_death s).move_right = s.move_right ∧
    (handle_death s).move_left = s.move_left ∧
    (handle_death s).move_down = s.move_down ∧
    (handle_death s).show_win_popup = s.show_win_popup ∧
    (handle_death s).show_game_over_popup =
      (s.show_game_over_popup || decide (s.dot ∈ s.tail)) := by
  unfold handle_death
  split_ifs with hmem
  · simp [hmem]
  · simp [hmem]

lemma handle_tail_spec (s : App) :
    (handle_tail s).dot = s.dot ∧
    (handle_tail s).tail_length = s.tail_length ∧
    (handle_tail s).food = s.food ∧ (handle_tail s).counter = s.counter ∧
    (handle_tail s).exit = s.exit ∧
    (handle_tail s).move_up = s.move_up ∧
    (handle_tail s).move_right = s.move_right ∧
    (handle_tail s).move_left = s.move_left ∧
    (handle_tail s).move_down = s.move_down ∧
    (handle_tail s).show_win_popup = s.show_win_popup ∧
    (handle_tail s).show_game_over_popup = s.show_game_over_popup ∧
    (handle_tail s).tail.length =
      (if s.tail_length < s.tail.length + 1 then s.tail.length else s.tail.length + 1) := by
  unfold handle_tail
  by_cases hlen : s.tail_length < s.tail.length + 1
  · rw [if_pos (by rw [List.length_cons]; exact hlen)]
    refine ⟨rfl, rfl, rfl, rfl, rfl, rfl, rfl, rfl, rfl, rfl, rfl, ?_⟩
    show ((s.dot :: s.tail).dropLast).length = _
    rw [if_pos hlen, List.length_dropLast, List.length_cons]
    omega
  · rw [if_neg (by rw [List.length_cons]; exact hlen)]
    refine ⟨rfl, rfl, rfl, rfl, rfl, rfl, rfl, rfl, rfl, rfl, rfl, ?_⟩
    show (s.dot :: s.tail).length = _
    rw [if_neg hlen, List.length_cons]

lemma update_spec (s : App) (smp : List (Nat × Nat)) (t : App)
    (r : List (Nat × Nat)) (h : update s smp = some (t, r)) :
    t.tail.length =
      (if s.tail_length < s.tail.length + 1 then s.tail.length else s.tail.length + 1) ∧
    s.tail_length ≤ t.tail_length ∧ (WinInv s → WinInv t) ∧
    t.show_game_over_popup = (s.show_game_over_popup || decide (s.dot ∈ s.tail)) ∧
    t.dot = dotAfter s := by
  unfold update at h
  obtain ⟨mtail, mgo, mle, mwi, mdot⟩ :=
    move_dot_spec (handle_tail (handle_death s)) smp t r h
  obtain ⟨hd_dot, hd_tail, hd_tl, hd_food, hd_cnt, hd_exit, hd_mu, hd_mr, hd_ml,
    hd_md, hd_win, hd_go⟩ := handle_death_spec s
  obtain ⟨ht_dot, ht_tl, ht_food, ht_cnt, ht_exit, ht_mu, ht_mr, ht_ml, ht_md,
    ht_win, ht_go, ht_len⟩ := handle_tail_spec (handle_death s)
  refine ⟨?_, ?_, ?_, ?_, ?_⟩
  · rw [mtail, ht_len, hd_tl, hd_tail]
  · calc s.tail_length = (handle_tail (handle_death s)).tail_length := by
          rw [ht_tl, hd_tl]
      _ ≤ t.tail_length := mle
  · intro hw
    apply mwi
    unfold WinInv at hw ⊢
    rw [ht_win, hd_win, ht_tl, hd_tl]
    exact hw
  · rw [mgo, ht_go, hd_go]
  · rw [mdot]
    unfold dotAfter
    rw [ht_dot, hd_dot,
      dotUp_congr (handle_tail (handle_death s)) s s.dot (ht_mu.trans hd_mu),
      dotRight_congr (handle_tail (handle_death s)) s _ (ht_mr.trans hd_mr),
      dotLeft_congr (handle_tail (handle_death s)) s _ (ht_ml.trans hd_ml),
      dotDown_congr (handle_tail (handle_death s)) s _ (ht_md.trans hd_md)]

lemma moveUp_fields (s : App) :
    (moveUp s).counter = s.counter ∧ (moveUp s).exit = s.exit ∧
    (moveUp s).dot = s.dot ∧ (moveUp s).tail = s.tail ∧
    (moveUp s).tail_length = s.tail_length ∧ (moveUp s).food = s.food ∧
    (moveUp s).show_game_over_popup = s.show_game_over_popup ∧
    (moveUp s).show_win_popup = s.show_win_popup := by
  unfold moveUp
  split_ifs <;> exact ⟨rfl, rfl, rfl, rfl, rfl, rfl, rfl, rfl⟩

lemma moveDown_fields (s : App) :
    (moveDown s).counter = s.counter ∧ (moveDown s).exit = s.exit ∧
    (moveDown s).dot = s.dot ∧ (moveDown s).tail = s.tail ∧
    (moveDown s).tail_length = s.tail_length ∧ (moveDown s).food = s.food ∧
    (moveDown s).show_game_over_popup = s.show_game_over_popup ∧
    (moveDown s).show_win_popup = s.show_win_popup := by
  unfold moveDown
  split_ifs <;> exact ⟨rfl, rfl, rfl, rfl, rfl, rfl, rfl, rfl⟩

lemma moveRight_fields (s : App) :
    (moveRight s).counter = s.counter ∧ (moveRight s).exit = s.exit ∧
    (moveRight s).dot = s.dot ∧ (moveRight s).tail = s.tail ∧
    (moveRight s).tail_length = s.tail_length ∧ (moveRight s).food = s.food ∧
    (moveRight s).show_game_over_popup = s.show_game_over_popup ∧
    (moveRight s).show_win_popup = s.show_win_popup := by
  unfold moveRight
  split_ifs <;> exact ⟨rfl, rfl, rfl, rfl, rfl, rfl, rfl, rfl⟩

lemma moveLeft_fields (s : App) :
    (moveLeft s).counter = s.counter ∧ (moveLeft s).exit = s.exit ∧
    (moveLeft s).dot = s.dot ∧ (moveLeft s).tail = s.tail ∧
    (moveLeft s).tail_length = s.tail_length ∧ (moveLeft s).food = s.food ∧
    (moveLeft s).show_game_over_popup = s.show_game_over_popup ∧
    (moveLeft s).show_win_popup = s.show_win_popup := by
  unfold moveLeft
  split_ifs <;> exact ⟨rfl, rfl, rfl, rfl, rfl, rfl, rfl, rfl⟩

lemma handle_key_event_spec (s : App) (k : KeyCode) :
    (handle_key_event s k).dot = s.dot ∧
    (handle_key_event s k).tail = s.tail ∧
    (handle_key_event s k).tail_length = s.tail_length ∧
    (handle_key_event s k).food = s.food ∧
    (handle_key_event s k).counter = s.counter ∧
    (handle_key_event s k).show_game_over_popup = s.show_game_over_popup ∧
    (handle_key_event s k).show_win_popup = s.show_win_popup := by
  cases k with
  | Char c =>
    unfold handle_key_event
    dsimp only
    split_ifs <;> exact ⟨rfl, rfl, rfl, rfl, rfl, rfl, rfl⟩
  | Left =>
    unfold handle_key_event
    dsimp only
    split_ifs with hg
    · obtain ⟨c1, e1, d1, t1, l1, f1, g1, w1⟩ := moveLeft_fields { s with exit := true }
      exact ⟨d1, t1, l1, f1, c1, g1, w1⟩
    · obtain ⟨c1, e1, d1, t1, l1, f1, g1, w1⟩ := moveLeft_fields s
      exact ⟨d1, t1, l1, f1, c1, g1, w1⟩
  | Right =>
    unfold handle_key_event
    dsimp only
    split_ifs with hg
    · obtain ⟨c1, e1, d1, t1, l1, f1, g1, w1⟩ := moveRight_fields { s with exit := true }
      exact ⟨d1, t1, l1, f1, c1, g1, w1⟩
    · obtain ⟨c1, e1, d1, t1, l1, f1, g1, w1⟩ := moveRight_fields s
      exact ⟨d1, t1, l1, f1, c1, g1, w1⟩
  | Up =>
    unfold handle_key_event
    dsimp only
    split_ifs with hg
    · obtain ⟨c1, e1, d1, t1, l1, f1, g1, w1⟩ := moveUp_fields { s with exit := true }
      exact ⟨d1, t1, l1, f1, c1, g1, w1⟩
    · obtain ⟨c1, e1, d1, t1, l1, f1, g1, w1⟩ := moveUp_fields s
      exact ⟨d1, t1, l1, f1, c1, g1, w1⟩
  | Down =>
    unfold handle_key_event
    dsimp only
    split_ifs with hg
    · obtain ⟨c1, e1, d1, t1, l1, f1, g1, w1⟩ := moveDown_fields { s with exit := true }
      exact ⟨d1, t1, l1, f1, c1, g1, w1⟩
    · obtain ⟨c1, e1, d1, t1, l1, f1, g1, w1⟩ := moveDown_fields s
      exact ⟨d1, t1, l1, f1, c1, g1, w1⟩
  | Other =>
    unfold handle_key_event
    dsimp only
    split_ifs <;> exact ⟨rfl, rfl, rfl, rfl, rfl, rfl, rfl⟩

lemma step_winInv (a b : App) (hab : Step a b) (hw : WinInv a) : WinInv b := by
  cases hab with
  | key k =>
    obtain ⟨-, -, hl, -, -, -, hwp⟩ := handle_key_event_spec a k
    unfold WinInv at hw ⊢
    rw [hwp, hl]
    exact hw
  | tick smp out hg hwin hupd =>
    obtain ⟨t, r⟩ := out
    exact (update_spec a smp t r hupd).2.2.1 hw

lemma initState_winInv (s : App) (hs : InitState s) : WinInv s := by
  obtain ⟨smp, out, hsp, hseq⟩ := hs
  obtain ⟨t, r⟩ := out
  obtain ⟨-, -, htl, -, -, -, -, -, -, -, hwin, -, -⟩ :=
    spawn_spec App.default smp t r hsp
  unfold WinInv
  rw [hseq]
  show t.show_win_popup = true ↔ GRID_SIZE - 1 ≤ t.tail_length
  rw [hwin, htl]
  show (false || decide ((3 : Nat) = GRID_SIZE - 1)) = true ↔ GRID_SIZE - 1 ≤ 3
  rw [grid_threshold]
  decide

/-- Claim C4: the win popup (the code's `Won` phase) is shown in a reachable
state exactly when the desired length `tail_length` has reached
`GRID_SIZE - 1`; since `tail_length` starts at 3 and is incremented only by
food consumption (with the threshold checked by `spawn_food_randomly`
immediately after each increment), the popup appears on the tick where food
is consumed and the threshold is hit, and in no earlier reachable state. -/
theorem c4_win_iff_threshold (s : App) (hr : Reachable s) :
    s.show_win_popup = true ↔ GRID_SIZE - 1 ≤ s.tail_length := by
  obtain ⟨s₀, hinit, hrt⟩ := hr
  have h0 : WinInv s₀ := initState_winInv s₀ hinit
  induction hrt with
  | refl => exact h0
  | tail h1 hstep ih => exact step_winInv _ _ hstep ih

/-- Witness for C4 at the concretely reachable freshly-spawned state. -/
theorem c4_win_iff_threshold_wit :
    ({ App.default with food := ⟨0, 0⟩ } : App).show_win_popup = true ↔
      GRID_SIZE - 1 ≤ ({ App.default with food := ⟨0, 0⟩ } : App).tail_length :=
  c4_win_iff_threshold { App.default with food := ⟨0, 0⟩ }
    ⟨{ App.default with food := ⟨0, 0⟩ },
      ⟨[(0, 0)], ({ App.default with food := ⟨0, 0⟩ }, []), by decide, rfl⟩,
      Relation.ReflTransGen.refl⟩

/-- Claim C7: the popup phases are terminal.  Once a state shows the game-over
or the win popup, every further loop step (key events are still processed,
ticks are gated off) leaves the snake, the food, the score, the desired length
and both popup flags unchanged; in particular no tick ever runs again and the
phase never reverts to Running. -/
theorem c7_terminal_phases (s t : App)
    (hpop : s.show_game_over_popup = true ∨ s.show_win_popup = true)
    (hrt : Relation.ReflTransGen Step s t) :
    t.dot = s.dot ∧ t.tail = s.tail ∧ t.food = s.food ∧ t.counter = s.counter ∧
    t.tail_length = s.tail_length ∧
    t.show_game_over_popup = s.show_game_over_popup ∧
    t.show_win_popup = s.show_win_popup := by
  induction hrt with
  | refl => exact ⟨rfl, rfl, rfl, rfl, rfl, rfl, rfl⟩
  | tail h1 hstep ih =>
    obtain ⟨ihd, iht, ihf, ihc, ihl, ihg, ihw⟩ := ih
    cases hstep with
    | key k =>
      obtain ⟨kd, kt, kl, kf, kc, kg, kw⟩ := handle_key_event_spec _ k
      exact ⟨kd.trans ihd, kt.trans iht, kf.trans ihf, kc.trans ihc,
        kl.trans ihl, kg.trans ihg, kw.trans ihw⟩
    | tick smp out hg hw hupd =>
      rcases hpop with hp | hp
      · rw [ihg, hp] at hg
        cases hg
      · rw [ihw, hp] at hw
        cases hw

/-- Witness for C7: a state showing the win popup, with the empty step
sequence. -/
theorem c7_terminal_phases_wit :
    ({ App.default with show_win_popup := true } : App).dot =
      ({ App.default with show_win_popup := true } : App).dot ∧
    ({ App.default with show_win_popup := true } : App).tail =
      ({ App.default with show_win_popup := true } : App).tail ∧
    ({ App.default with show_win_popup := true } : App).food =
      ({ App.default with show_win_popup := true } : App).food ∧
    ({ App.default with show_win_popup := true } : App).counter =
      ({ App.default with show_win_popup := true } : App).counter ∧
    ({ App.default with show_win_popup := true } : App).tail_length =
      ({ App.default with show_win_popup := true } : App).tail_length ∧
    ({ App.default with show_win_popup := true } : App).show_game_over_popup =
      ({ App.default with show_win_popup := true } : App).show_game_over_popup ∧
    ({ App.default with show_win_popup := true } : App).show_win_popup =
      ({ App.default with show_win_popup := true } : App).show_win_popup :=
  c7_terminal_phases { App.default with show_win_popup := true }
    { App.default with show_win_popup := true } (Or.inr (by decide))
    Relation.ReflTransGen.refl

lemma step_lenInv (a b : App) (hab : Step a b) (hl : LenInv a) : LenInv b := by
  cases hab with
  | key k =>
    obtain ⟨-, ht, hlen, -, -, -, -⟩ := handle_key_event_spec a k
    unfold LenInv at hl ⊢
    rw [ht, hlen]
    exact hl
  | tick smp out hg hwin hupd =>
    obtain ⟨t, r⟩ := out
    obtain ⟨hlen, hle, -, -, -⟩ := update_spec a smp t r hupd
    unfold LenInv at hl ⊢
    show t.tail.length ≤ t.tail_length
    rw [hlen]
    split_ifs with hc <;> omega

lemma initState_lenInv (s : App) (hs : InitState s) : LenInv s := by
  obtain ⟨smp, out, hsp, hseq⟩ := hs
  obtain ⟨t, r⟩ := out
  obtain ⟨-, htail, htl, -⟩ := spawn_spec App.default smp t r hsp
  unfold LenInv
  rw [hseq]
  show t.tail.length ≤ t.tail_length
  rw [htail, htl]
  decide

lemma reachable_lenInv (s : App) (hr : Reachable s) : LenInv s := by
  obtain ⟨s₀, hinit, hrt⟩ := hr
  have h0 : LenInv s₀ := initState_lenInv s₀ hinit
  induction hrt with
  | refl => exact h0
  | tail h1 hstep ih => exact step_lenInv _ _ hstep ih

/-- Claim C8 (amended): in every reachable state the tail deque is at most
`tail_length` (the desired length) long — equality holds only once the snake
has grown to full length — and a tick sets the post-tick tail length to
`min (previous length + 1) tail_length`. -/
theorem c8_tail_length_invariant (s : App) (hr : Reachable s) :
    s.tail.length ≤ s.tail_length ∧
    (∀ (smp : List (Nat × Nat)) (t : App) (r : List (Nat × Nat)),
      update s smp = some (t, r) →
      t.tail.length = min (s.tail.length + 1) s.tail_length) := by
  have hinv : LenInv s := reachable_lenInv s hr
  refine ⟨hinv, ?_⟩
  intro smp t r hupd
  obtain ⟨hlen, -, -, -, -⟩ := update_spec s smp t r hupd
  rw [hlen]
  unfold LenInv at hinv
  split_ifs with hc <;> omega

/-- Witness for C8 at the concretely reachable freshly-spawned state. -/
theorem c8_tail_length_invariant_wit :
    ({ App.default with food := ⟨0, 0⟩ } : App).tail.length ≤
      ({ App.default with food := ⟨0, 0⟩ } : App).tail_length ∧
    (∀ (smp : List (Nat × Nat)) (t : App) (r : List (Nat × Nat)),
      update { App.default with food := ⟨0, 0⟩ } smp = some (t, r) →
      t.tail.length =
        min (({ App.default with food := ⟨0, 0⟩ } : App).tail.length + 1)
          ({ App.default with food := ⟨0, 0⟩ } : App).tail_length) :=
  c8_tail_length_invariant { App.default with food := ⟨0, 0⟩ }
    ⟨{ App.default with food := ⟨0, 0⟩ },
      ⟨[(0, 0)], ({ App.default with food := ⟨0, 0⟩ }, []), by decide, rfl⟩,
      Relation.ReflTransGen.refl⟩

/-- Claim C9: with a well-formed stored heading, requesting the exact opposite
heading leaves the state completely unchanged, while requesting any
non-opposite heading (including the current one) installs it as the stored
heading and changes nothing outside the four direction flags. -/
theorem c9_heading_request (s : App) (h r : Heading) (hh : isHeading s h = true) :
    (r = h.opposite → requestHeading s r = s) ∧
    (r ≠ h.opposite →
      isHeading (requestHeading s r) r = true ∧
      (requestHeading s r).counter = s.counter ∧
      (requestHeading s r).exit = s.exit ∧
      (requestHeading s r).dot = s.dot ∧
      (requestHeading s r).tail = s.tail ∧
      (requestHeading s r).tail_length = s.tail_length ∧
      (requestHeading s r).food = s.food ∧
      (requestHeading s r).show_game_over_popup = s.show_game_over_popup ∧
      (requestHeading s r).show_win_popup = s.show_win_popup) := by
  cases h <;> cases r <;>
    simp_all [isHeading, requestHeading, moveUp, moveDown, moveLeft, moveRight,
      Heading.opposite]

/-- Witness for C9: from the default state (heading Up), requesting Left. -/
theorem c9_heading_request_wit :
    (Heading.Left = Heading.Up.opposite → requestHeading App.default Heading.Left = App.default) ∧
    (Heading.Left ≠ Heading.Up.opposite →
      isHeading (requestHeading App.default Heading.Left) Heading.Left = true ∧
      (requestHeading App.default Heading.Left).counter = App.default.counter ∧
      (requestHeading App.default Heading.Left).exit = App.default.exit ∧
      (requestHeading App.default Heading.Left).dot = App.default.dot ∧
      (requestHeading App.default Heading.Left).tail = App.default.tail ∧
      (requestHeading App.default Heading.Left).tail_length = App.default.tail_length ∧
      (requestHeading App.default Heading.Left).food = App.default.food ∧
      (requestHeading App.default Heading.Left).show_game_over_popup =
        App.default.show_game_over_popup ∧
      (requestHeading App.default Heading.Left).show_win_popup =
        App.default.show_win_popup) :=
  c9_heading_request App.default Heading.Up Heading.Left (by decide)

/-- Claim C10: while the game-over popup is shown, every key press (whatever
the key) sets the exit flag; while only the win popup is shown, a key press
sets the exit flag exactly when the key is the character q. -/
theorem c10_popup_key_exit (s : App) (k : KeyCode) (hx : s.exit = false) :
    (s.show_game_over_popup = true → (handle_key_event s k).exit = true) ∧
    (s.show_game_over_popup = false → s.show_win_popup = true →
      ((handle_key_event s k).exit = true ↔ k = KeyCode.Char 'q')) := by
  constructor
  · intro hg
    cases k with
    | Char c =>
      unfold handle_key_event
      dsimp only
      rw [if_pos hg]
      split_ifs <;> rfl
    | Left =>
      unfold handle_key_event
      dsimp only
      rw [if_pos hg]
      exact (moveLeft_fields { s with exit := true }).2.1
    | Right =>
      unfold handle_key_event
      dsimp only
      rw [if_pos hg]
      exact (moveRight_fields { s with exit := true }).2.1
    | Up =>
      unfold handle_key_event
      dsimp only
      rw [if_pos hg]
      exact (moveUp_fields { s with exit := true }).2.1
    | Down =>
      unfold handle_key_event
      dsimp only
      rw [if_pos hg]
      exact (moveDown_fields { s with exit := true }).2.1
    | Other =>
      unfold handle_key_event
      dsimp only
      rw [if_pos hg]
  · intro hg hw
    cases k with
    | Char c =>
      unfold handle_key_event
      dsimp only
      have hgo : ¬(s.show_game_over_popup = true) := by
        rw [hg]
        exact Bool.false_ne_true
      rw [if_neg hgo]
      split_ifs with hq
      · simp [hq]
      · rw [hx]
        simp [hq]
    | Left =>
      unfold handle_key_event
      dsimp only
      rw [if_neg (by rw [hg]; exact Bool.false_ne_true)]
      rw [(moveLeft_fields s).2.1, hx]
      simp
    | Right =>
      unfold handle_key_event
      dsimp only
      rw [if_neg (by rw [hg]; exact Bool.false_ne_true)]
      rw [(moveRight_fields s).2.1, hx]
      simp
    | Up =>
      unfold handle_key_event
      dsimp only
      rw [if_neg (by rw [hg]; exact Bool.false_ne_true)]
      rw [(moveUp_fields s).2.1, hx]
      simp
    | Down =>
      unfold handle_key_event
      dsimp only
      rw [if_neg (by rw [hg]; exact Bool.false_ne_true)]
      rw [(moveDown_fields s).2.1, hx]
      simp
    | Other =>
      unfold handle_key_event
      dsimp only
      rw [if_neg (by rw [hg]; exact Bool.false_ne_true)]
      rw [hx]
      simp

/-- Witness for C10: the game-over popup with an unbound key, and the win
popup with an unbound key. -/
theorem c10_popup_key_exit_wit :
    (({ App.default with show_game_over_popup := true } : App).show_game_over_popup = true →
      (handle_key_event { App.default with show_game_over_popup := true }
        KeyCode.Other).exit = true) ∧
    (({ App.default with show_game_over_popup := true } : App).show_game_over_popup = false →
      ({ App.default with show_game_over_popup := true } : App).show_win_popup = true →
      ((handle_key_event { App.default with show_game_over_popup := true }
          KeyCode.Other).exit = true ↔ KeyCode.Other = KeyCode.Char 'q')) :=
  c10_popup_key_exit { App.default with show_game_over_popup := true }
    KeyCode.Other (by decide)

/-- Counterexample to claim C1 as stated: in `c1s` the candidate head cell
(5,4) is occupied by a snake cell other than the vacated tail cell (4,5), yet
the tick leaves the game-over flag unset and moves the head onto (5,4). -/
theorem c1_no_candidate_precheck_cex :
    (update c1s []).map (fun p => (p.1.show_game_over_popup, p.1.dot)) =
      some (false, (⟨5, 4⟩ : Dot)) := by decide

/-- Claim C1 (amended): a tick sets the game-over flag exactly when the
current head (before this tick's movement) already coincides with a cell of
the tail deque; there is no candidate-cell pre-check and no vacated-tail
exclusion, and the head still moves within the very tick that sets the flag. -/
theorem c1_death_flag_semantics (s : App) (smp : List (Nat × Nat)) (t : App)
    (r : List (Nat × Nat)) (h : update s smp = some (t, r)) :
    t.show_game_over_popup = (s.show_game_over_popup || decide (s.dot ∈ s.tail)) ∧
    t.dot = dotAfter s :=
  ⟨(update_spec s smp t r h).2.2.2.1, (update_spec s smp t r h).2.2.2.2⟩

/-- Witness for C1 (amended): on `c1ws` the tick sets the flag and still moves
the head. -/
theorem c1_death_flag_semantics_wit :
    c1wt.show_game_over_popup =
      (c1ws.show_game_over_popup || decide (c1ws.dot ∈ c1ws.tail)) ∧
    c1wt.dot = dotAfter c1ws :=
  c1_death_flag_semantics c1ws [] c1wt [] (by decide)

/-- Counterexample to claim C2 as stated: the tick moves the head onto the
food cell, so the new head equals the food cell, yet the score stays 0, the
desired length stays 3 and the food is not respawned. -/
theorem c2_new_head_on_food_cex :
    (update c2s []).map
      (fun p => (p.1.dot, p.1.food, p.1.counter, p.1.tail_length)) =
      some ((⟨5, 4⟩ : Dot), (⟨5, 4⟩ : Food), 0, 3) := by decide

/-- Claim C2 (amended): food is consumed exactly when the head already stands
on the food cell at the moment of the pre-step check (`handle_food` runs
before each movement step); consumption then increments the score by one
(u8, modulo 256), increments the desired length by one and respawns the food
excluding the current head and all tail cells. -/
theorem c2_food_consumption_semantics (s : App) (smp : List (Nat × Nat))
    (t : App) (r : List (Nat × Nat)) (h : handle_food s smp = some (t, r)) :
    (¬(s.dot.x = s.food.x ∧ s.dot.y = s.food.y) → t = s) ∧
    ((s.dot.x = s.food.x ∧ s.dot.y = s.food.y) →
      t.counter = (s.counter + 1) % 256 ∧
      t.tail_length = s.tail_length + 1 ∧
      t.dot = s.dot ∧ t.tail = s.tail ∧
      ¬(t.food.x = s.dot.x ∧ t.food.y = s.dot.y) ∧
      (∀ d ∈ s.tail, ¬(d.x = t.food.x ∧ d.y = t.food.y))) := by
  unfold handle_food at h
  split_ifs at h with he
  · rcases hs : spawn_food_randomly { s with tail_length := s.tail_length + 1 } smp
      with _ | ⟨s2, rest⟩
    · rw [hs] at h
      cases h
    · rw [hs, Option.some_inj, Prod.mk.injEq] at h
      obtain ⟨ht, hr⟩ := h
      subst ht
      obtain ⟨hdot, htail, htl, hcnt, -, -, -, -, -, -, -, hf1, hf2⟩ :=
        spawn_spec _ smp s2 rest hs
      refine ⟨fun hn => absurd he hn, fun _ => ⟨?_, ?_, hdot, htail, hf1, hf2⟩⟩
      · show (s2.counter + 1) % 256 = (s.counter + 1) % 256
        rw [hcnt]
      · show s2.tail_length = s.tail_length + 1
        rw [htl]
  · rw [Option.some_inj, Prod.mk.injEq] at h
    obtain ⟨ht, hr⟩ := h
    exact ⟨fun _ => ht.symm, fun hc => absurd hc he⟩

/-- Witness for C2 (amended) at a concrete consumption. -/
theorem c2_food_consumption_semantics_wit :
    (¬(c2ws.dot.x = c2ws.food.x ∧ c2ws.dot.y = c2ws.food.y) → c2wt = c2ws) ∧
    ((c2ws.dot.x = c2ws.food.x ∧ c2ws.dot.y = c2ws.food.y) →
      c2wt.counter = (c2ws.counter + 1) % 256 ∧
      c2wt.tail_length = c2ws.tail_length + 1 ∧
      c2wt.dot = c2ws.dot ∧ c2wt.tail = c2ws.tail ∧
      ¬(c2wt.food.x = c2ws.dot.x ∧ c2wt.food.y = c2ws.dot.y) ∧
      (∀ d ∈ c2ws.tail, ¬(d.x = c2wt.food.x ∧ d.y = c2wt.food.y))) :=
  c2_food_consumption_semantics c2ws [(2, 0)] c2wt [] (by decide)

/-- Counterexample to claim C5 as stated: `c5bad` is reachable and is observed
right after a completed tick, yet its food cell equals its head cell. -/
theorem c5_head_on_food_after_tick_cex :
    Reachable c5bad ∧ update c5init [] = some (c5bad, []) ∧
    c5bad.food.x = c5bad.dot.x ∧ c5bad.food.y = c5bad.dot.y :=
  ⟨⟨c5init, ⟨[(20, 19)], (c5init, []), by decide, rfl⟩,
      Relation.ReflTransGen.single
        (Step.tick c5init [] (c5bad, []) (by decide) (by decide) (by decide))⟩,
    by decide, by decide, by decide⟩

/-- Claim C5 (amended): at spawn time the placed food cell differs from the
head and from every tail cell; the invariant holds at placement only — after a
later completed tick the head may rest on the food cell. -/
theorem c5_food_free_at_spawn (s : App) (smp : List (Nat × Nat)) (t : App)
    (r : List (Nat × Nat)) (h : spawn_food_randomly s smp = some (t, r)) :
    ¬(t.food.x = t.dot.x ∧ t.food.y = t.dot.y) ∧
    (∀ d ∈ t.tail, ¬(d.x = t.food.x ∧ d.y = t.food.y)) := by
  obtain ⟨hdot, htail, -, -, -, -, -, -, -, -, -, hf1, hf2⟩ := spawn_spec s smp t r h
  refine ⟨?_, ?_⟩
  · rw [hdot]
    exact hf1
  · rw [htail]
    exact hf2

/-- Witness for C5 (amended) at a concrete spawn. -/
theorem c5_food_free_at_spawn_wit :
    ¬(({ App.default with food := ⟨8, 3⟩ } : App).food.x =
        ({ App.default with food := ⟨8, 3⟩ } : App).dot.x ∧
      ({ App.default with food := ⟨8, 3⟩ } : App).food.y =
        ({ App.default with food := ⟨8, 3⟩ } : App).dot.y) ∧
    (∀ d ∈ ({ App.default with food := ⟨8, 3⟩ } : App).tail,
      ¬(d.x = ({ App.default with food := ⟨8, 3⟩ } : App).food.x ∧
        d.y = ({ App.default with food := ⟨8, 3⟩ } : App).food.y)) :=
  c5_food_free_at_spawn App.default [(7, 3)]
    { App.default with food := ⟨8, 3⟩ } [] (by decide)

/-- Counterexample to claim C6 as stated: one tick moves the head two cells to
the right (from x = 5 to x = 7), not one, although the move is nowhere near
the boundary. -/
theorem c6_two_cell_horizontal_cex :
    (update c6s []).map (fun p => p.1.dot) = some (⟨7, 5⟩ : Dot) := by decide

/-- Claim C6 (amended): a completed tick displaces the head by exactly
`dotAfter`: one cell for Up/Down (blocked at the top/bottom bound), and up to
two cells for Left/Right — two when the first step does not reach the
horizontal bound, one otherwise, none when already at the bound. -/
theorem c6_head_displacement (s : App) (smp : List (Nat × Nat)) (t : App)
    (r : List (Nat × Nat)) (h : update s smp = some (t, r)) :
    t.dot = dotAfter s ∧
    (s.move_up = true ∧ s.move_right = false ∧ s.move_left = false ∧
        s.move_down = false →
      t.dot = (if 0 < s.dot.y then (⟨s.dot.x, s.dot.y - 1⟩ : Dot) else s.dot)) ∧
    (s.move_down = true ∧ s.move_up = false ∧ s.move_right = false ∧
        s.move_left = false →
      t.dot = (if s.dot.y < max_y then (⟨s.dot.x, s.dot.y + 1⟩ : Dot) else s.dot)) ∧
    (s.move_right = true ∧ s.move_up = false ∧ s.move_down = false ∧
        s.move_left = false →
      t.dot = (if s.dot.x < max_x then
        (if s.dot.x + 1 < max_x then (⟨s.dot.x + 2, s.dot.y⟩ : Dot)
          else ⟨s.dot.x + 1, s.dot.y⟩)
        else s.dot)) ∧
    (s.move_left = true ∧ s.move_up = false ∧ s.move_down = false ∧
        s.move_right = false →
      t.dot = (if 0 < s.dot.x then
        (if 0 < s.dot.x - 1 then (⟨s.dot.x - 2, s.dot.y⟩ : Dot)
          else ⟨s.dot.x - 1, s.dot.y⟩)
        else s.dot)) := by
  have hdot := (update_spec s smp t r h).2.2.2.2
  refine ⟨hdot, ?_, ?_, ?_, ?_⟩
  · rintro ⟨h1, h2, h3, h4⟩
    rw [hdot]
    simp only [dotAfter, dotUp, dotRight, dotLeft, dotDown, h1, h2, h3, h4]
    simp
  · rintro ⟨h1, h2, h3, h4⟩
    rw [hdot]
    simp only [dotAfter, dotUp, dotRight, dotLeft, dotDown, h1, h2, h3, h4]
    simp
  · rintro ⟨h1, h2, h3, h4⟩
    rw [hdot]
    simp only [dotAfter, dotUp, dotRight, dotLeft, dotDown, h1, h2, h3, h4]
    simp
  · rintro ⟨h1, h2, h3, h4⟩
    rw [hdot]
    simp only [dotAfter, dotUp, dotRight, dotLeft, dotDown, h1, h2, h3, h4]
    simp

/-- Witness for C6 (amended) on the rightward state `c6s`. -/
theorem c6_head_displacement_wit :
    c6wt.dot = dotAfter c6s ∧
    (c6s.move_up = true ∧ c6s.move_right = false ∧ c6s.move_left = false ∧
        c6s.move_down = false →
      c6wt.dot = (if 0 < c6s.dot.y then (⟨c6s.dot.x, c6s.dot.y - 1⟩ : Dot) else c6s.dot)) ∧
    (c6s.move_down = true ∧ c6s.move_up = false ∧ c6s.move_right = false ∧
        c6s.move_left = false →
      c6wt.dot = (if c6s.dot.y < max_y then (⟨c6s.dot.x, c6s.dot.y + 1⟩ : Dot) else c6s.dot)) ∧
    (c6s.move_right = true ∧ c6s.move_up = false ∧ c6s.move_down = false ∧
        c6s.move_left = false →
      c6wt.dot = (if c6s.dot.x < max_x then
        (if c6s.dot.x + 1 < max_x then (⟨c6s.dot.x + 2, c6s.dot.y⟩ : Dot)
          else ⟨c6s.dot.x + 1, c6s.dot.y⟩)
        else c6s.dot)) ∧
    (c6s.move_left = true ∧ c6s.move_up = false ∧ c6s.move_down = false ∧
        c6s.move_right = false →
      c6wt.dot = (if 0 < c6s.dot.x then
        (if 0 < c6s.dot.x - 1 then (⟨c6s.dot.x - 2, c6s.dot.y⟩ : Dot)
          else ⟨c6s.dot.x - 1, c6s.dot.y⟩)
        else c6s.dot)) :=
  c6_head_displacement c6s [] c6wt [] (by decide)

/-- Counterexample to claim C8 as stated: a reachable post-tick state whose
snake length differs from the desired length. -/
theorem c8_length_below_desired_cex :
    Reachable c8bad ∧
    update { App.default with food := ⟨0, 0⟩ } [] = some (c8bad, []) ∧
    c8bad.tail.length ≠ c8bad.tail_length :=
  ⟨⟨{ App.default with food := ⟨0, 0⟩ },
      ⟨[(0, 0)], ({ App.default with food := ⟨0, 0⟩ }, []), by decide, rfl⟩,
      Relation.ReflTransGen.single
        (Step.tick { App.default with food := ⟨0, 0⟩ } [] (c8bad, [])
          (by decide) (by decide) (by decide))⟩,
    by decide, by decide⟩

lemma mem_deadTail (a b : Nat) (ha : a ≤ 56) (hpar : a % 2 = 0) (hb : b ≤ 22) :
    (⟨a, b⟩ : Dot) ∈ deadTail := by
  unfold deadTail
  rw [List.mem_map]
  refine ⟨a / 2 * 23 + b, List.mem_range.mpr (by omega), ?_⟩
  simp only [Dot.mk.injEq]
  omega

lemma adjustX_in_range (x : Nat) (hx : x ≤ max_x) :
    adjustX x ≤ 56 ∧ adjustX x % 2 = 0 := by
  unfold adjustX max_x GAME_WIDTH at *
  split_ifs with h1 h2 <;> omega

lemma deadApp_rejects (p : Nat × Nat) (hx : p.1 ≤ max_x) (hy : p.2 ≤ max_y) :
    spawnAccept deadApp p = none := by
  obtain ⟨hle, hpar⟩ := adjustX_in_range p.1 hx
  unfold spawnAccept
  split_ifs with h1 h2
  · rfl
  · rfl
  · exfalso
    apply h2
    rw [List.any_eq_true]
    refine ⟨⟨adjustX p.1, p.2⟩, ?_, by simp⟩
    show (⟨adjustX p.1, p.2⟩ : Dot) ∈ deadApp.tail
    exact mem_deadTail _ _ hle hpar (by unfold max_y GAME_HEIGHT at hy; omega)

/-- Claim C3: on the full-board configuration `deadApp` the spawn loop rejects
every in-range sample, so no sequence of random draws can ever make
`spawn_food_randomly` return — the code loops forever instead of failing with
a `NoFreeCellError` (no such error exists in the code). -/
theorem c3_spawn_full_board_diverges (smp : List (Nat × Nat))
    (hvalid : ∀ p ∈ smp, p.1 ≤ max_x ∧ p.2 ≤ max_y) :
    spawn_food_randomly deadApp smp = none := by
  have hloop : ∀ l : List (Nat × Nat), (∀ p ∈ l, p.1 ≤ max_x ∧ p.2 ≤ max_y) →
      spawnLoop deadApp l = none := by
    intro l
    induction l with
    | nil => intro _; rfl
    | cons p rest ih =>
      intro hv
      unfold spawnLoop
      rw [deadApp_rejects p (hv p (List.mem_cons_self p rest)).1
        (hv p (List.mem_cons_self p rest)).2]
      exact ih (fun q hq => hv q (List.mem_cons_of_mem p hq))
  unfold spawn_food_randomly
  rw [if_neg (by decide : ¬(deadApp.tail_length = GRID_SIZE - 1))]
  dsimp only
  rw [hloop smp hvalid]

/-- Witness for C3: two concrete in-range samples, both rejected. -/
theorem c3_spawn_full_board_diverges_wit :
    (∀ p ∈ ([(0, 0), (57, 22)] : List (Nat × Nat)), p.1 ≤ max_x ∧ p.2 ≤ max_y) ∧
    spawn_food_randomly deadApp [(0, 0), (57, 22)] = none :=
  ⟨by decide, c3_spawn_full_board_diverges [(0, 0), (57, 22)] (by decide)⟩

end Snake
